import Mathlib

/-!
Shallow embedding of the `NaukriAPIClient` session/cookie lifecycle from
`src/main.py` of the naukri-api-client repository, together with theorems
settling the frozen claims about it.

Modelling conventions:
* Python `int(time.time())` is a parameter `now : Int` threaded explicitly.
* A Python exception escaping a function is `Except.error (e : PyErr)`;
  a normal return is `Except.ok`.
* The JSON values moving through the client are the inductive `Json`.
* HTTP traffic is an oracle: each operation receives the responses the
  remote server would produce, and additionally records the requests it
  issued as a `List Event` trace.
-/

namespace Naukri

/-- Python exception classes that the client code can raise or catch. -/
inductive PyErr where
  | valueError
  | requestException
  | attributeError
  | typeError
  | keyError
  | indexError
deriving DecidableEq, Repr

/-- Model of the JSON values in request/response bodies and the cookie file. -/
inductive Json where
  | null
  | str (s : String)
  | num (n : Int)
  | bool (b : Bool)
  | arr (xs : List Json)
  | obj (fields : List (String × Json))

/-- First value bound to key `k` in an association list, as Python dict lookup
(`fields` is in insertion order; our objects never repeat a key). -/
def Json.lookup (fields : List (String × Json)) (k : String) : Option Json :=
  match fields with
  | [] => none
  | (k2, v) :: rest => if k2 = k then some v else Json.lookup rest k

/-- Python truthiness (`bool(x)`) of a JSON value. -/
def Json.truthy : Json → Bool
  | .null => false
  | .str s => !(s == "")
  | .num n => !(n == 0)
  | .bool b => b
  | .arr xs => !xs.isEmpty
  | .obj fs => !fs.isEmpty

/-- One cookie as held in the live `requests.Session` jar: `name`, `value`,
`domain`, and the expiry the server attached to it (if any).
`_save_cookies` in `src/main.py` never reads `expires`; `_set_cookies_from_json`
never sets it. -/
structure SessionCookie where
  name : String
  value : String
  domain : String
  expires : Option Int
deriving DecidableEq, Repr

/-- One element of the persisted JSON cookie file: a dict whose keys may each
be absent (`c.get(...)` / `"name" in c` in the source). -/
structure CookieEntry where
  name : Option String
  value : Option String
  domain : Option String
  expiry : Option Int
deriving DecidableEq, Repr

/-- State of the on-disk cookie file: absent, present but unparseable
(`json.load` raises), or a parsed JSON array of cookie dicts. -/
inductive CookieFile where
  | absent
  | corrupt
  | entries (es : List CookieEntry)
deriving DecidableEq, Repr

/-- Model of `NaukriAPIClient._is_cookie_expired` (src/main.py lines 324-340):
returns `True` when the file is absent or unreadable; otherwise scans the
parsed entries and returns `True` on the first entry whose
`c.get("expiry", 0)` is truthy (nonzero) and `< now`; returns `False`
when the scan finds none (in particular on an empty array). -/
def is_cookie_expired (file : CookieFile) (now : Int) : Bool :=
  match file with
  | .absent => true
  | .corrupt => true
  | .entries es => es.any (fun c => !((c.expiry.getD 0) == 0) && (c.expiry.getD 0) < now)

/-- The expiry predicate of claim C1, taken from the spec words: expired when
the file is absent, or fails to parse, or any recorded expiry is in the past,
or the file holds zero cookies. Written for comparison with
`is_cookie_expired`, which is the code. -/
def is_expired_claim (file : CookieFile) (now : Int) : Bool :=
  match file with
  | .absent => true
  | .corrupt => true
  | .entries es =>
      es.isEmpty || es.any (fun c => match c.expiry with | some e => e < now | none => false)

/-- Model of `NaukriAPIClient._save_cookies` (src/main.py lines 296-310): serializes
every jar cookie as name/value/domain plus `int(time.time()) + 3600` as the
`expiry` field — the cookie's own `expires` attribute is never consulted. -/
def save_cookies (cs : List SessionCookie) (now : Int) : List CookieEntry :=
  cs.map (fun c =>
    { name := some c.name, value := some c.value, domain := some c.domain,
      expiry := some (now + 3600) })

/-- Model of `requests.cookies.set(name, value, domain)`: replaces any jar cookie with
the same name and domain, then appends the new cookie (set without an
`expires` argument, so the installed cookie has none). -/
def jarSet (jar : List SessionCookie) (c : SessionCookie) : List SessionCookie :=
  (jar.filter (fun c0 => !(c0.name == c.name && c0.domain == c.domain))) ++ [c]

/-- Model of `NaukriAPIClient._set_cookies_from_json` applied to already-parsed cookie
dicts: each dict with both a `name` and a `value` key is installed via
`session.cookies.set(name, value, domain=c.get("domain", ".naukri.com"))`;
dicts missing either key are skipped. -/
def set_cookies_from_entries (jar : List SessionCookie) (es : List CookieEntry) :
    List SessionCookie :=
  es.foldl (fun j e =>
    match e.name, e.value with
    | some n, some v => jarSet j { name := n, value := v, domain := e.domain.getD ".naukri.com", expires := none }
    | _, _ => j) jar

/-- Model of `NaukriAPIClient._load_cookies` (src/main.py lines 312-322): no-op when the
file is absent; a parse failure is caught and leaves the jar unchanged; a
parsed array is installed through `_set_cookies_from_json`. -/
def load_cookies (file : CookieFile) (jar : List SessionCookie) : List SessionCookie :=
  match file with
  | .absent => jar
  | .corrupt => jar
  | .entries es => set_cookies_from_entries jar es

/-- Persist the jar at time `now`, then load the resulting file into a fresh
(empty) jar, exactly as a new `NaukriAPIClient.__init__` would. -/
def cookieRoundTrip (cs : List SessionCookie) (now : Int) : List SessionCookie :=
  load_cookies (.entries (save_cookies cs now)) []

/-- Mutable client state: the live session cookie jar and the on-disk file. -/
structure ClientState where
  jar : List SessionCookie
  file : CookieFile
deriving DecidableEq, Repr

/-- Observable actions of one operation run: the expiry pre-check, the login
POST, and the four business HTTP requests the client can send. The update and
headline events carry the request payload fields the claims speak about. -/
inductive Event where
  | expiryCheck (expired : Bool)
  | loginCall
  | profileGet
  | uploadPost
  | updateResumePost (fileKey : String) (profileId : Json)
  | headlinePost (resumeHeadline : String) (profileId : Json)

/-- Is this event one of the authenticated business HTTP requests
(profile GET, upload POST, resume-update POST, headline POST)? -/
def Event.isHttpSend : Event → Bool
  | .profileGet => true
  | .uploadPost => true
  | .updateResumePost _ _ => true
  | .headlinePost _ _ => true
  | _ => false

/-- Is this event the cookie-expiry pre-check? -/
def Event.isExpiryCheck : Event → Bool
  | .expiryCheck _ => true
  | _ => false

/-- Is this event a login POST? -/
def Event.isLogin : Event → Bool
  | .loginCall => true
  | _ => false

/-- Holds when every authenticated business HTTP request in the trace is
preceded by an expiry check (the "ensure valid" gate of the spec). -/
def ensureValidBeforeSend (evs : List Event) : Bool :=
  go false evs
where
  go (seen : Bool) : List Event → Bool
    | [] => true
    | e :: rest =>
        if e.isExpiryCheck then go true rest
        else if e.isHttpSend then seen && go seen rest
        else go seen rest

/-- Result of one operation: the Python return value (or the exception that
escaped), the client state afterwards, and the trace of observable actions. -/
structure OpOut (α : Type) where
  result : Except PyErr α
  state : ClientState
  events : List Event

/-- One HTTP response: status code and parsed JSON body. -/
structure HttpResp where
  status : Nat
  body : Json

/-- Python `response.raise_for_status()` raises `requests.HTTPError` exactly for
status codes 400-599. -/
def raisesForStatus (status : Nat) : Bool :=
  400 ≤ status && status < 600

/-- What the login endpoint does for one POST: either the request raises
(transport failure, or a non-2xx status turned into `HTTPError` by
`raise_for_status`), or a body is delivered. -/
inductive LoginOutcome where
  | noResponse
  | response (body : Json)

/-- Read one element of the login response's `cookies` array as a cookie dict;
string-valued fields are kept, anything else is treated as absent. -/
def jsonEntry (fs : List (String × Json)) : CookieEntry :=
  { name := match Json.lookup fs "name" with | some (.str s) => some s | _ => none,
    value := match Json.lookup fs "value" with | some (.str s) => some s | _ => none,
    domain := match Json.lookup fs "domain" with | some (.str s) => some s | _ => none,
    expiry := match Json.lookup fs "expiry" with | some (.num n) => some n | _ => none }

/-- Iterate the login response's `cookies` value as `for c in cookie_list`
does: a non-array value, or a non-dict element, raises `TypeError` there; the
dicts read before the failing element are still returned (they were already
installed into the jar when the loop died). -/
def cookiesFromJson : Json → List CookieEntry × Option PyErr
  | .arr xs => go xs
  | _ => ([], some .typeError)
where
  go : List Json → List CookieEntry × Option PyErr
    | [] => ([], none)
    | .obj fs :: rest =>
        let r := go rest
        (jsonEntry fs :: r.1, r.2)
    | _ :: _ => ([], some .typeError)

/-- Model of `NaukriAPIClient.login` (src/main.py lines 50-65): POST credentials; a
transport failure or non-2xx raises `requests.RequestException`; a body
without a `cookies` key raises `ValueError` — in both cases before anything is
written, so the persisted file is untouched. Otherwise the cookies are
installed into the jar and `_save_cookies` overwrites the file. -/
def login (outcome : LoginOutcome) (now : Int) (st : ClientState) : OpOut Unit :=
  match outcome with
  | .noResponse => { result := .error .requestException, state := st, events := [.loginCall] }
  | .response body =>
    match body with
    | .obj fs =>
      match Json.lookup fs "cookies" with
      | none => { result := .error .valueError, state := st, events := [.loginCall] }
      | some cj =>
        let parsed := cookiesFromJson cj
        let jar2 := set_cookies_from_entries st.jar parsed.1
        match parsed.2 with
        | some e =>
            { result := .error e, state := { jar := jar2, file := st.file },
              events := [.loginCall] }
        | none =>
            { result := .ok (),
              state := { jar := jar2, file := .entries (save_cookies jar2 now) },
              events := [.loginCall] }
    | _ => { result := .error .typeError, state := st, events := [.loginCall] }

/-- The responses the remote side supplies to one `get_profile` run: the login
outcome used if the expiry pre-check forces a login, the first GET (where
`none` means the request raised), the login outcome used on a 401, and the
retry GET. -/
structure ProfileEnv where
  now : Int
  preLogin : LoginOutcome
  get1 : Option HttpResp
  retryLogin : LoginOutcome
  get2 : Option HttpResp

/-- Tail of `NaukriAPIClient.get_profile`: the `try` block. A raising GET is
caught and yields `None`; a 401 triggers one `login()` (whose own failure is
caught, yielding `None`) and one retry; the final response yields its body on
status 200 and `None` otherwise. -/
def get_profile_try (env : ProfileEnv) (st : ClientState) (evs : List Event) :
    OpOut (Option Json) :=
  match env.get1 with
  | none => { result := .ok none, state := st, events := evs ++ [.profileGet] }
  | some r1 =>
    if r1.status = 401 then
      let lr := login env.retryLogin env.now st
      match lr.result with
      | .error _ =>
          { result := .ok none, state := lr.state,
            events := evs ++ ([.profileGet] ++ lr.events) }
      | .ok _ =>
        match env.get2 with
        | none =>
            { result := .ok none, state := lr.state,
              events := evs ++ ([.profileGet] ++ lr.events ++ [.profileGet]) }
        | some r2 =>
            { result := .ok (if r2.status = 200 then some r2.body else none),
              state := lr.state,
              events := evs ++ ([.profileGet] ++ lr.events ++ [.profileGet]) }
    else
      { result := .ok (if r1.status = 200 then some r1.body else none),
        state := st, events := evs ++ [.profileGet] }

/-- Model of `NaukriAPIClient.get_profile` (src/main.py lines 77-103): checks
`_is_cookie_expired` first and logs in if expired — this pre-check login is
outside the `try`, so its exception escapes `get_profile`; then runs the
`try` block modelled by `get_profile_try`. -/
def get_profile (env : ProfileEnv) (st : ClientState) : OpOut (Option Json) :=
  let ex := is_cookie_expired st.file env.now
  if ex then
    let lr := login env.preLogin env.now st
    match lr.result with
    | .error e =>
        { result := .error e, state := lr.state,
          events := [.expiryCheck ex] ++ lr.events }
    | .ok _ => get_profile_try env lr.state ([.expiryCheck ex] ++ lr.events)
  else
    get_profile_try env st [.expiryCheck ex]

/-- Model of `NaukriAPIClient.update_resume` (src/main.py lines 165-209): one POST; a
transport failure or 4xx/5xx raises `requests.RequestException`, caught and
turned into `False`; status 200 yields `True`; any other status yields
`False`. No login and no retry on 401. -/
def update_resume (resp : Option HttpResp) (fileKey : String) (profileId : Json)
    (st : ClientState) : OpOut Bool :=
  let evs := [Event.updateResumePost fileKey profileId]
  match resp with
  | none => { result := .ok false, state := st, events := evs }
  | some r =>
    if raisesForStatus r.status then { result := .ok false, state := st, events := evs }
    else if r.status = 200 then { result := .ok true, state := st, events := evs }
    else { result := .ok false, state := st, events := evs }

/-- Python subscript `j[k]` on a JSON value: `KeyError` when a dict lacks the
key, `TypeError` when the value is not a dict (including `None`). -/
def subscriptKey (j : Json) (k : String) : Except PyErr Json :=
  match j with
  | .obj fs => match Json.lookup fs k with | some v => .ok v | none => .error .keyError
  | _ => .error .typeError

/-- Python subscript `j[0]`: first element of a list (or first character of a
string), `IndexError` when empty, `TypeError` on non-sequences. -/
def subscriptZero (j : Json) : Except PyErr Json :=
  match j with
  | .arr [] => .error .indexError
  | .arr (x :: _) => .ok x
  | .str s =>
      match s.data with
      | [] => .error .indexError
      | c :: _ => .ok (.str (String.mk [c]))
  | _ => .error .typeError

/-- The `profile_data['profile'][0]['profileId']` chain of `upload_resume`;
each step can raise, and `upload_resume` has no handler for those errors. -/
def profileIdOf (pj : Json) : Except PyErr Json := do
  let plist ← subscriptKey pj "profile"
  let first ← subscriptZero plist
  subscriptKey first "profileId"

/-- The responses one `upload_resume` run consumes: whether the local file
opens, the upload POST response (`none` means the request raised), the
environment for the nested `get_profile`, and the resume-update response. -/
structure UploadEnv where
  fileExists : Bool
  uploadResp : Option HttpResp
  profile : ProfileEnv
  updateResp : Option HttpResp

/-- Model of `NaukriAPIClient.upload_resume` (src/main.py lines 105-163): a missing
local file or a raising upload request is caught (`None`); an empty or
non-dict upload body yields `None` before any further call; otherwise the
first key of the body is taken as the file key, `get_profile` resolves the
profile id (a `ValueError`/`TypeError` escaping it is uncaught here, and a
`None` profile makes the subscript chain raise `TypeError`), a falsy profile
id yields `False`, and otherwise `update_resume` is invoked with the file key
and that profile id. -/
def upload_resume (env : UploadEnv) (st : ClientState) : OpOut (Option Bool) :=
  if !env.fileExists then { result := .ok none, state := st, events := [] }
  else
    match env.uploadResp with
    | none => { result := .ok none, state := st, events := [.uploadPost] }
    | some r =>
      if raisesForStatus r.status then
        { result := .ok none, state := st, events := [.uploadPost] }
      else
        match r.body with
        | .obj ((k, _) :: _) =>
          let p := get_profile env.profile st
          let evs := Event.uploadPost :: p.events
          match p.result with
          | .error .requestException =>
              { result := .ok none, state := p.state, events := evs }
          | .error e => { result := .error e, state := p.state, events := evs }
          | .ok none => { result := .error .typeError, state := p.state, events := evs }
          | .ok (some pj) =>
            match profileIdOf pj with
            | .error e => { result := .error e, state := p.state, events := evs }
            | .ok pid =>
              if !pid.truthy then
                { result := .ok (some false), state := p.state, events := evs }
              else
                let ur := update_resume env.updateResp k pid p.state
                { result := match ur.result with
                    | .ok b => .ok (some b)
                    | .error e => .error e,
                  state := ur.state, events := evs ++ ur.events }
        | _ => { result := .ok none, state := st, events := [.uploadPost] }

/-- Python `s.rstrip(".")`: remove every trailing period. -/
def rstripDot (s : String) : String :=
  String.mk ((s.data.reverse.dropWhile (fun c => c = '.')).reverse)

/-- The responses one `refresh_resume_headline` run consumes: the environment
for the initial `get_profile`, the response to the add-period POST, and the
response to the revert POST (`none` means the request raised). -/
structure HeadlineEnv where
  profile : ProfileEnv
  addResp : Option HttpResp
  revertResp : Option HttpResp

/-- Model of `NaukriAPIClient.refresh_resume_headline` (src/main.py lines 211-280):
fetches the profile — outside any `try`, so a `None` result makes
`profile_data.get` raise `AttributeError`, which escapes; a falsy `profile`
list, or falsy `profileId`/`resumeHeadline`, yields `False`; otherwise the
first POST submits `current.rstrip(".") + "."`; a raising or non-200 first
POST yields `False` with no second POST; on 200 the second POST submits the
original headline and the run succeeds only if it returns 200 as well. -/
def refresh_resume_headline (env : HeadlineEnv) (st : ClientState) : OpOut Bool :=
  let p := get_profile env.profile st
  match p.result with
  | .error e => { result := .error e, state := p.state, events := p.events }
  | .ok none => { result := .error .attributeError, state := p.state, events := p.events }
  | .ok (some pj) =>
    match pj with
    | .obj fs =>
      let plist := (Json.lookup fs "profile").getD (Json.arr [])
      if !plist.truthy then { result := .ok false, state := p.state, events := p.events }
      else
        match plist with
        | .arr [] => { result := .ok false, state := p.state, events := p.events }
        | .arr (profile :: _) =>
          match profile with
          | .obj pfs =>
            let pid := (Json.lookup pfs "profileId").getD Json.null
            let headline := (Json.lookup pfs "resumeHeadline").getD Json.null
            if !pid.truthy || !headline.truthy then
              { result := .ok false, state := p.state, events := p.events }
            else
              match headline with
              | .str h =>
                let hdot := rstripDot h ++ "."
                let evs1 := p.events ++ [Event.headlinePost hdot pid]
                match env.addResp with
                | none => { result := .ok false, state := p.state, events := evs1 }
                | some r1 =>
                  if raisesForStatus r1.status then
                    { result := .ok false, state := p.state, events := evs1 }
                  else if r1.status ≠ 200 then
                    { result := .ok false, state := p.state, events := evs1 }
                  else
                    let evs2 := evs1 ++ [Event.headlinePost h pid]
                    match env.revertResp with
                    | none => { result := .ok false, state := p.state, events := evs2 }
                    | some r2 =>
                      if raisesForStatus r2.status then
                        { result := .ok false, state := p.state, events := evs2 }
                      else if r2.status = 200 then
                        { result := .ok true, state := p.state, events := evs2 }
                      else
                        { result := .ok false, state := p.state, events := evs2 }
              | _ => { result := .error .attributeError, state := p.state, events := p.events }
          | _ => { result := .error .attributeError, state := p.state, events := p.events }
        | _ => { result := .error .typeError, state := p.state, events := p.events }
    | _ => { result := .error .attributeError, state := p.state, events := p.events }

/-- Python truthiness of an optional credential string: `None` and the empty
string are falsy. -/
def truthyStr : Option String → Bool
  | none => false
  | some s => !(s == "")

/-- Model of `username or os.getenv("NAUKRI_USERNAME")` in `__init__`: the explicit
argument when it is truthy, otherwise the environment value. -/
def resolveCred (explicit envVal : Option String) : Option String :=
  if truthyStr explicit then explicit else envVal

/-- Model of `NaukriAPIClient.__init__` (src/main.py lines 16-45): resolves each
credential (explicit argument first, then environment), raises `ValueError`
when either resolved credential is falsy, and otherwise loads any persisted
cookies into a fresh jar. `__init__` performs no HTTP request, so the event
trace is empty on both paths. -/
def clientInit (user password envUser envPassword : Option String) (file : CookieFile) :
    Except PyErr ClientState × List Event :=
  let u := resolveCred user envUser
  let pw := resolveCred password envPassword
  if !truthyStr u || !truthyStr pw then (.error .valueError, [])
  else (.ok { jar := load_cookies file [], file := file }, [])

/-! ## Helper lemmas -/

/-- Every `login` run performs exactly one login POST, however it ends. -/
theorem login_events (o : LoginOutcome) (now : Int) (st : ClientState) :
    (login o now st).events = [Event.loginCall] := by
  unfold login
  cases o with
  | noResponse => rfl
  | response body =>
    cases body with
    | obj fs =>
      rcases hlk : Json.lookup fs "cookies" with _ | cj
      · simp [hlk]
      · rcases hp : (cookiesFromJson cj).2 with _ | e <;> simp [hlk, hp]
    | null => rfl
    | str s => rfl
    | num n => rfl
    | bool b => rfl
    | arr xs => rfl

/-- Every `update_resume` run performs exactly one resume-update POST. -/
theorem update_resume_events (resp : Option HttpResp) (k : String) (pid : Json)
    (st : ClientState) :
    (update_resume resp k pid st).events = [Event.updateResumePost k pid] := by
  unfold update_resume
  cases resp with
  | none => rfl
  | some r =>
      dsimp only
      split
      · rfl
      · split <;> rfl

/-- The (name, domain) key under which the `requests` jar stores a cookie;
`cookies.set` replaces the cookie holding the same key. -/
def cookieKey (c : SessionCookie) : String × String := (c.name, c.domain)

/-- Setting a cookie whose key clashes with nothing in the jar appends it. -/
theorem jarSet_no_clash (jar : List SessionCookie) (c : SessionCookie)
    (h : ∀ c0 ∈ jar, cookieKey c0 ≠ cookieKey c) :
    jarSet jar c = jar ++ [c] := by
  unfold jarSet
  congr 1
  apply List.filter_eq_self.mpr
  intro a ha
  have h2 := h a ha
  simp only [cookieKey, ne_eq, Prod.mk.injEq, not_and] at h2
  by_cases hn : a.name = c.name
  · have hd := h2 hn
    simp [hn, hd]
  · simp [hn]

/-- The load-side image of a saved cookie: name, value and domain survive the
save/load cycle, the expiry does not. -/
def stripExpires (c : SessionCookie) : SessionCookie :=
  { name := c.name, value := c.value, domain := c.domain, expires := none }

/-- Installing the entries written by `_save_cookies` into a jar none of them
clashes with appends the saved cookies, each with its `expires` dropped
(`_set_cookies_from_json` installs no expiry). -/
theorem set_save_append (cs : List SessionCookie) (now : Int) (jar : List SessionCookie)
    (hnd : (cs.map cookieKey).Nodup)
    (hj : ∀ c ∈ cs, ∀ c0 ∈ jar, cookieKey c0 ≠ cookieKey c) :
    set_cookies_from_entries jar (save_cookies cs now) = jar ++ cs.map stripExpires := by
  induction cs generalizing jar with
  | nil => simp [set_cookies_from_entries, save_cookies]
  | cons c rest ih =>
    have hstep : set_cookies_from_entries jar (save_cookies (c :: rest) now) =
        set_cookies_from_entries (jarSet jar (stripExpires c)) (save_cookies rest now) := by
      simp [save_cookies, set_cookies_from_entries, stripExpires]
    rw [hstep,
      jarSet_no_clash jar (stripExpires c) (fun c0 hc0 => hj c (by simp) c0 hc0)]
    have hnd2 : (rest.map cookieKey).Nodup := hnd.of_cons
    have hnotmem : cookieKey c ∉ rest.map cookieKey := by
      have h3 := hnd
      simp only [List.map_cons, List.nodup_cons] at h3
      exact h3.1
    have hj2 : ∀ c2 ∈ rest, ∀ c0 ∈ jar ++ [stripExpires c],
        cookieKey c0 ≠ cookieKey c2 := by
      intro c2 hc2 c0 hc0
      rcases List.mem_append.mp hc0 with hin | hone
      · exact hj c2 (List.mem_cons_of_mem c hc2) c0 hin
      · have hc0eq : c0 = stripExpires c := by simpa using hone
        subst hc0eq
        intro heq
        exact hnotmem (heq ▸ List.mem_map_of_mem cookieKey hc2)
    rw [ih (jar ++ [stripExpires c]) hnd2 hj2]
    simp

/-! ## C3 -/

/-- C3 counterexample: a jar holding one cookie with server expiry `5`, saved
at time `1000` and immediately loaded, does not come back equal to what was
saved — the loaded cookie carries no expiry. -/
theorem C3_counterexample :
    cookieRoundTrip
        [{ name := "nid", value := "v1", domain := ".naukri.com", expires := some 5 }] 1000 ≠
      [{ name := "nid", value := "v1", domain := ".naukri.com", expires := some 5 }] := by
  decide

/-- C3 (amended): for every jar whose (name, domain) keys are distinct (as the
`requests` jar enforces), saving then immediately loading yields cookies with
the same name/value/domain tuples in the same order, but with the expiry
dropped: `_save_cookies` persists `now + 3600` instead of the cookie's own
expiry, and `_set_cookies_from_json` installs cookies without any expiry. -/
theorem C3_roundtrip_name_value_domain (cs : List SessionCookie) (now : Int)
    (hnd : (cs.map cookieKey).Nodup) :
    cookieRoundTrip cs now = cs.map stripExpires := by
  unfold cookieRoundTrip load_cookies
  have h := set_save_append cs now [] hnd (by intro c hc c0 hc0; simp at hc0)
  simpa using h

/-- C3 witness: a two-cookie jar round-trips to the same names, values and
domains with the expiries gone. -/
theorem C3_roundtrip_name_value_domain_witness :
    cookieRoundTrip
        [{ name := "nid", value := "v1", domain := ".naukri.com", expires := some 5 },
         { name := "sid", value := "v2", domain := "www.naukri.com", expires := none }] 1000 =
      [{ name := "nid", value := "v1", domain := ".naukri.com", expires := none },
       { name := "sid", value := "v2", domain := "www.naukri.com", expires := none }] := by
  have h := C3_roundtrip_name_value_domain
    [{ name := "nid", value := "v1", domain := ".naukri.com", expires := some 5 },
     { name := "sid", value := "v2", domain := "www.naukri.com", expires := none }] 1000
    (by decide)
  simpa [stripExpires] using h

/-! ## C1 -/

/-- C1 counterexample: on a cookie file that parses to an empty array, the
claim's fail-closed predicate says expired, but `_is_cookie_expired` scans
zero entries and returns `False`. -/
theorem C1_counterexample :
    is_expired_claim (CookieFile.entries []) 5 = true ∧
    is_cookie_expired (CookieFile.entries []) 5 = false := by
  decide

/-- C1 (amended): `is_expired()` returns true if the file is absent, or the
file fails to parse, or any cookie's recorded expiry is nonzero and in the
past; a file that parses — even to zero cookies — with no such expiry yields
false (paths with zero cookies or all-unset expiries are treated as not
expired, not fail-closed). -/
theorem C1_is_cookie_expired_characterised (now : Int) (es : List CookieEntry) :
    is_cookie_expired CookieFile.absent now = true ∧
    is_cookie_expired CookieFile.corrupt now = true ∧
    (is_cookie_expired (CookieFile.entries es) now = true ↔
      ∃ c ∈ es, c.expiry.getD 0 ≠ 0 ∧ c.expiry.getD 0 < now) := by
  refine ⟨rfl, rfl, ?_⟩
  simp [is_cookie_expired]

/-! ## C4 -/

/-- C4: when the login response body is a JSON object with no `cookies`
field, `login` raises `ValueError` (the authentication failure) and returns
with the client state — jar and persisted cookie file — unchanged. -/
theorem C4_login_missing_cookies_no_write (fs : List (String × Json)) (now : Int)
    (st : ClientState) (h : Json.lookup fs "cookies" = none) :
    login (LoginOutcome.response (Json.obj fs)) now st =
      { result := Except.error PyErr.valueError, state := st, events := [Event.loginCall] } := by
  unfold login
  simp [h]

/-- C4 witness at a concrete empty response body. -/
theorem C4_login_missing_cookies_no_write_witness :
    login (LoginOutcome.response (Json.obj [("status", Json.str "ok")])) 7
        { jar := [], file := CookieFile.absent } =
      { result := Except.error PyErr.valueError,
        state := { jar := [], file := CookieFile.absent },
        events := [Event.loginCall] } :=
  C4_login_missing_cookies_no_write [("status", Json.str "ok")] 7
    { jar := [], file := CookieFile.absent } rfl

/-! ## C8 -/

/-- C8: `_save_cookies` assigns `now + 3600` as the persisted expiry of every
cookie, including one that carries an explicit server-provided expiry
(`expires := some 9999999999` is discarded in favour of `1000 + 3600`). -/
theorem C8_save_overwrites_server_expiry :
    save_cookies
        [{ name := "nid", value := "v1", domain := ".naukri.com", expires := some 9999999999 }]
        1000 =
      [{ name := some "nid", value := some "v1", domain := some ".naukri.com",
         expiry := some 4600 }] ∧
    (4600 : Int) ≠ 9999999999 := by
  refine ⟨rfl, by decide⟩

/-! ## C5 -/

/-- Once an expiry check has been seen, the rest of any trace is accepted. -/
theorem ensureValid_go_true (evs : List Event) :
    ensureValidBeforeSend.go true evs = true := by
  induction evs with
  | nil => rfl
  | cons e rest ih =>
      unfold ensureValidBeforeSend.go
      by_cases h1 : e.isExpiryCheck
      · simp [h1, ih]
      · by_cases h2 : e.isHttpSend <;> simp [h1, h2, ih]

/-- A trace opening with the expiry check passes the ensure-valid gate. -/
theorem ensureValid_check_head (b : Bool) (evs : List Event) :
    ensureValidBeforeSend (Event.expiryCheck b :: evs) = true := by
  unfold ensureValidBeforeSend ensureValidBeforeSend.go
  simp [Event.isExpiryCheck, ensureValid_go_true]

/-- The `try` block of `get_profile` only appends to the trace it is given. -/
theorem get_profile_try_events (env : ProfileEnv) (st : ClientState) (evs : List Event) :
    ∃ tail, (get_profile_try env st evs).events = evs ++ tail := by
  unfold get_profile_try
  dsimp only
  repeat' split
  all_goals exact ⟨_, rfl⟩

/-- Every `get_profile` trace opens with the cookie-expiry check. -/
theorem get_profile_events_shape (env : ProfileEnv) (st : ClientState) :
    ∃ tail, (get_profile env st).events =
      Event.expiryCheck (is_cookie_expired st.file env.now) :: tail := by
  unfold get_profile
  by_cases hexp : is_cookie_expired st.file env.now
  · simp only [hexp, if_true]
    split
    · exact ⟨_, rfl⟩
    · obtain ⟨tail, htail⟩ := get_profile_try_events env
        (login env.preLogin env.now st).state
        ([Event.expiryCheck true] ++ (login env.preLogin env.now st).events)
      exact ⟨(login env.preLogin env.now st).events ++ tail, htail⟩
  · simp only [hexp, Bool.false_eq_true, if_false]
    obtain ⟨tail, htail⟩ := get_profile_try_events env st [Event.expiryCheck false]
    exact ⟨tail, htail⟩

/-- A `refresh_resume_headline` trace extends the trace of its opening
profile fetch. -/
theorem refresh_events_extends_profile (env : HeadlineEnv) (st : ClientState) :
    ∃ tail, (refresh_resume_headline env st).events =
      (get_profile env.profile st).events ++ tail := by
  unfold refresh_resume_headline
  dsimp only
  repeat' split
  all_goals first
    | exact ⟨[], (List.append_nil _).symm⟩
    | exact ⟨_, rfl⟩
    | exact ⟨_, List.append_assoc _ _ _⟩

/-- C5 counterexample: `upload_resume` issues its upload POST as the very
first action of its trace — no cookie-expiry check precedes it, so its trace
fails the ensure-valid gate. -/
theorem C5_counterexample :
    (upload_resume
        { fileExists := true, uploadResp := some { status := 200, body := Json.obj [] },
          profile :=
            { now := 0, preLogin := LoginOutcome.noResponse, get1 := none,
              retryLogin := LoginOutcome.noResponse, get2 := none },
          updateResp := none }
        { jar := [], file := CookieFile.absent }).events = [Event.uploadPost] ∧
    ensureValidBeforeSend
      (upload_resume
        { fileExists := true, uploadResp := some { status := 200, body := Json.obj [] },
          profile :=
            { now := 0, preLogin := LoginOutcome.noResponse, get1 := none,
              retryLogin := LoginOutcome.noResponse, get2 := none },
          updateResp := none }
        { jar := [], file := CookieFile.absent }).events = false :=
  ⟨rfl, rfl⟩

/-- With an existing local file, `upload_resume` opens its trace with the
upload POST: every other event (the nested profile fetch with its expiry
check, the resume-update POST) comes after it. -/
theorem upload_resume_events_head (env : UploadEnv) (st : ClientState)
    (hfe : env.fileExists = true) :
    ∃ tail, (upload_resume env st).events = Event.uploadPost :: tail := by
  unfold upload_resume
  simp only [hfe, Bool.not_true, Bool.false_eq_true, if_false]
  repeat' split
  all_goals exact ⟨_, rfl⟩

/-- A profile-fetch environment whose GET raises. -/
def profileEnvNoResp : ProfileEnv :=
  { now := 0, preLogin := LoginOutcome.noResponse, get1 := none,
    retryLogin := LoginOutcome.noResponse, get2 := none }

/-- An upload environment with an existing file whose upload POST raises. -/
def uploadEnvNoResp : UploadEnv :=
  { fileExists := true, uploadResp := none, profile := profileEnvNoResp,
    updateResp := none }

/-- A headline environment whose opening profile fetch gets no response. -/
def headlineEnvNoResp : HeadlineEnv :=
  { profile := profileEnvNoResp, addResp := none, revertResp := none }

/-- C5 (amended): the profile fetch checks cookie expiry before its GET (its
trace always opens with the check, so it passes the ensure-valid gate), and
the headline refresh inherits that gate through its opening profile fetch;
`upload_resume`, by contrast, makes its upload POST the very first event of
its trace — before the nested profile fetch and any expiry check — and
`update_resume` issues its single POST with no expiry check at all, so both
traces fail the ensure-valid gate. -/
theorem C5_profile_and_headline_gate (penv : ProfileEnv) (henv : HeadlineEnv)
    (st st2 : ClientState) :
    ensureValidBeforeSend (get_profile penv st).events = true ∧
    ensureValidBeforeSend (refresh_resume_headline henv st2).events = true ∧
    (∀ (env2 : UploadEnv) (st3 : ClientState), env2.fileExists = true →
      (upload_resume env2 st3).events.head? = some Event.uploadPost ∧
      ensureValidBeforeSend (upload_resume env2 st3).events = false) ∧
    (∀ (resp : Option HttpResp) (k : String) (pid : Json) (st4 : ClientState),
      (update_resume resp k pid st4).events = [Event.updateResumePost k pid] ∧
      ensureValidBeforeSend (update_resume resp k pid st4).events = false) := by
  refine ⟨?_, ?_, ?_, ?_⟩
  · obtain ⟨tail, h⟩ := get_profile_events_shape penv st
    rw [h]
    exact ensureValid_check_head _ _
  · obtain ⟨tail2, h2⟩ := refresh_events_extends_profile henv st2
    obtain ⟨tail, h⟩ := get_profile_events_shape henv.profile st2
    rw [h2, h]
    exact ensureValid_check_head _ _
  · intro env2 st3 hfe
    obtain ⟨tail, ht⟩ := upload_resume_events_head env2 st3 hfe
    rw [ht]
    exact ⟨rfl, rfl⟩
  · intro resp k pid st4
    refine ⟨update_resume_events resp k pid st4, ?_⟩
    rw [update_resume_events]
    rfl

/-- C5 witness: a concrete profile fetch passes the ensure-valid gate; a
concrete upload run opens with the unchecked upload POST and fails the gate;
a concrete resume update fails the gate. -/
theorem C5_profile_and_headline_gate_witness :
    ensureValidBeforeSend (get_profile profileEnvNoResp
      { jar := [], file := CookieFile.absent }).events = true ∧
    (upload_resume uploadEnvNoResp
      { jar := [], file := CookieFile.absent }).events.head? = some Event.uploadPost ∧
    ensureValidBeforeSend (upload_resume uploadEnvNoResp
      { jar := [], file := CookieFile.absent }).events = false ∧
    ensureValidBeforeSend (update_resume none "fk" (Json.str "p1")
      { jar := [], file := CookieFile.absent }).events = false := by
  have H := C5_profile_and_headline_gate profileEnvNoResp headlineEnvNoResp
    { jar := [], file := CookieFile.absent } { jar := [], file := CookieFile.absent }
  refine ⟨H.1, ?_, ?_, (H.2.2.2 none "fk" (Json.str "p1")
    { jar := [], file := CookieFile.absent }).2⟩
  · exact (H.2.2.1 uploadEnvNoResp { jar := [], file := CookieFile.absent } rfl).1
  · exact (H.2.2.1 uploadEnvNoResp { jar := [], file := CookieFile.absent } rfl).2

/-! ## C6 -/

/-- The headline strings submitted by the POSTs of a trace, in order. -/
def headlinePayloads (evs : List Event) : List String :=
  evs.filterMap (fun e => match e with | .headlinePost s _ => some s | _ => none)

theorem Json.truthy_str (s : String) : (Json.str s).truthy = !(s == "") := rfl

theorem headlinePayloads_single (s : String) (pid : Json) :
    headlinePayloads [Event.headlinePost s pid] = [s] := rfl

theorem headlinePayloads_cons_post (s : String) (pid : Json) (rest : List Event) :
    headlinePayloads (Event.headlinePost s pid :: rest) = s :: headlinePayloads rest := rfl

theorem headlinePayloads_nil : headlinePayloads [] = [] := rfl

theorem Json.truthy_arr (xs : List Json) : (Json.arr xs).truthy = !xs.isEmpty := rfl

theorem headlinePayloads_append (l1 l2 : List Event) :
    headlinePayloads (l1 ++ l2) = headlinePayloads l1 ++ headlinePayloads l2 :=
  List.filterMap_append l1 l2 _

/-- A profile fetch submits no headline payloads. -/
theorem headlinePayloads_get_profile (env : ProfileEnv) (st : ClientState) :
    headlinePayloads (get_profile env st).events = [] := by
  unfold get_profile get_profile_try
  dsimp only
  repeat' split
  all_goals simp [headlinePayloads, login_events]

/-- A profile-fetch environment answering the GET with status 200 and a body
holding profile id `"12345"` and the given resume headline. -/
def headlineProfileEnv (h : String) : ProfileEnv :=
  { now := 0, preLogin := LoginOutcome.noResponse,
    get1 := some
      { status := 200,
        body := Json.obj [("profile", Json.arr [Json.obj
          [("profileId", Json.str "12345"), ("resumeHeadline", Json.str h)]])] },
    retryLogin := LoginOutcome.noResponse, get2 := none }

/-- A headline-refresh environment where both update POSTs return 200. -/
def headlineEnvOk (h : String) : HeadlineEnv :=
  { profile := headlineProfileEnv h,
    addResp := some { status := 200, body := Json.null },
    revertResp := some { status := 200, body := Json.null } }

/-- C6 counterexample: with current headline `"Senior Engineer."` (already
ending in a period) and both updates succeeding, the first submitted payload
is `"Senior Engineer."` â not the claim’s `"Senior Engineer." ++ "."` â
because the code strips trailing periods before appending one. -/
theorem C6_counterexample :
    headlinePayloads
      (refresh_resume_headline (headlineEnvOk "Senior Engineer.")
        { jar := [], file := CookieFile.entries [] }).events =
      ["Senior Engineer.", "Senior Engineer."] ∧
    "Senior Engineer." ++ "." = "Senior Engineer.." ∧
    ("Senior Engineer." : String) ≠ "Senior Engineer.." := by
  refine ⟨rfl, rfl, by decide⟩

/-- C6 (amended): for a current headline `h`, the first submitted payload is
`h` with its trailing periods stripped and a single period appended (equal to
`h ++ "."` exactly when `h` does not already end in a period); if the first
submission does not succeed with HTTP 200 (it raises or returns another
status), no second payload is sent and the operation reports failure; when it
returns 200 and the second (which restores the exact original `h`) also
returns 200, the operation reports success. -/
theorem C6_headline_payloads (env : HeadlineEnv) (st : ClientState) (pid : Json) (h : String)
    (hres : (get_profile env.profile st).result = Except.ok (some (Json.obj
      [("profile", Json.arr [Json.obj
        [("profileId", pid), ("resumeHeadline", Json.str h)]])])))
    (hpid : pid.truthy = true) (hh : h ≠ "") :
    (env.addResp = none →
      (refresh_resume_headline env st).result = Except.ok false ∧
      headlinePayloads (refresh_resume_headline env st).events = [rstripDot h ++ "."]) ∧
    (∀ r1, env.addResp = some r1 → r1.status ≠ 200 →
      (refresh_resume_headline env st).result = Except.ok false ∧
      headlinePayloads (refresh_resume_headline env st).events = [rstripDot h ++ "."]) ∧
    (∀ r1 r2, env.addResp = some r1 → r1.status = 200 → env.revertResp = some r2 →
      r2.status = 200 →
      (refresh_resume_headline env st).result = Except.ok true ∧
      headlinePayloads (refresh_resume_headline env st).events =
        [rstripDot h ++ ".", h]) := by
  refine ⟨?_, ?_, ?_⟩
  · intro ha
    unfold refresh_resume_headline
    dsimp only
    rw [hres, ha]
    simp [Json.lookup, Json.truthy_str, Json.truthy_arr, hpid, hh, headlinePayloads_append,
      headlinePayloads_get_profile, headlinePayloads_single]
  · intro r1 ha h200
    unfold refresh_resume_headline
    dsimp only
    rw [hres, ha]
    by_cases hraise : raisesForStatus r1.status
    · simp [Json.lookup, Json.truthy_str, Json.truthy_arr, hpid, hh, hraise,
        headlinePayloads_append, headlinePayloads_get_profile, headlinePayloads_single]
    · simp [Json.lookup, Json.truthy_str, Json.truthy_arr, hpid, hh, hraise, h200,
        headlinePayloads_append, headlinePayloads_get_profile, headlinePayloads_single]
  · intro r1 r2 ha h200 hr hr200
    unfold refresh_resume_headline
    dsimp only
    rw [hres, ha, hr]
    have hraise : raisesForStatus r1.status = false := by
      simp [raisesForStatus, h200]
    have hraise2 : raisesForStatus r2.status = false := by
      simp [raisesForStatus, hr200]
    simp [Json.lookup, Json.truthy_str, Json.truthy_arr, hpid, hh, hraise, hraise2,
      h200, hr200, raisesForStatus, headlinePayloads_append,
      headlinePayloads_get_profile, headlinePayloads_single, headlinePayloads_cons_post, headlinePayloads_nil]

/-- C6 witness: the headline `"Senior Engineer"` (no trailing period) with
both updates returning 200: payloads `"Senior Engineer."` then
`"Senior Engineer"`, and the operation reports success. -/
theorem C6_headline_payloads_witness :
    (refresh_resume_headline (headlineEnvOk "Senior Engineer")
        { jar := [], file := CookieFile.entries [] }).result = Except.ok true ∧
    headlinePayloads
      (refresh_resume_headline (headlineEnvOk "Senior Engineer")
        { jar := [], file := CookieFile.entries [] }).events =
      ["Senior Engineer.", "Senior Engineer"] := by
  have H := C6_headline_payloads (headlineEnvOk "Senior Engineer")
    { jar := [], file := CookieFile.entries [] }
    (Json.str "12345") "Senior Engineer" rfl rfl (by decide)
  have H2 := H.2.2 { status := 200, body := Json.null } { status := 200, body := Json.null }
    rfl rfl rfl rfl
  refine ⟨H2.1, ?_⟩
  rw [H2.2]
  rfl

/-! ## C7 -/

/-- C7: when the upload POST returns 200 with a non-empty JSON object body,
`upload_resume` takes the object's first key as the file key and invokes
`update_resume` with that key and the (truthy) `profileId` resolved through
`get_profile`, returning the update's verdict; when the body is a non-object
(array) or an empty object, it returns no result after the single upload POST
and never reaches `update_resume`. -/
theorem C7_upload_first_key (fileKey : String) (v : Json) (rest : List (String × Json))
    (penv : ProfileEnv) (uresp : Option HttpResp) (st : ClientState) (pid : String)
    (hres : (get_profile penv st).result = Except.ok (some (Json.obj
      [("profile", Json.arr [Json.obj [("profileId", Json.str pid)]])])))
    (hpid : pid ≠ "") :
    ((upload_resume
        { fileExists := true,
          uploadResp := some { status := 200, body := Json.obj ((fileKey, v) :: rest) },
          profile := penv, updateResp := uresp } st).events =
      Event.uploadPost :: (get_profile penv st).events ++
        [Event.updateResumePost fileKey (Json.str pid)]) ∧
    (∀ b, (update_resume uresp fileKey (Json.str pid) (get_profile penv st).state).result =
        Except.ok b →
      (upload_resume
        { fileExists := true,
          uploadResp := some { status := 200, body := Json.obj ((fileKey, v) :: rest) },
          profile := penv, updateResp := uresp } st).result = Except.ok (some b)) ∧
    (∀ xs : List Json,
      upload_resume
        { fileExists := true, uploadResp := some { status := 200, body := Json.arr xs },
          profile := penv, updateResp := uresp } st =
        { result := Except.ok none, state := st, events := [Event.uploadPost] }) ∧
    (upload_resume
        { fileExists := true, uploadResp := some { status := 200, body := Json.obj [] },
          profile := penv, updateResp := uresp } st =
      { result := Except.ok none, state := st, events := [Event.uploadPost] }) := by
  refine ⟨?_, ?_, fun xs => rfl, rfl⟩
  · unfold upload_resume
    dsimp only
    rw [hres]
    simp [raisesForStatus, profileIdOf, subscriptKey, subscriptZero, Json.lookup,
      bind, Except.bind, Json.truthy_str, hpid, update_resume_events]
  · intro b hb
    unfold upload_resume
    dsimp only
    rw [hres]
    simp [raisesForStatus, profileIdOf, subscriptKey, subscriptZero, Json.lookup,
      bind, Except.bind, Json.truthy_str, hpid, hb]

/-- Profile-fetch environment answering the GET with 200 and a body holding
only profile id `"12345"`. -/
def profileEnv12345 : ProfileEnv :=
  { now := 0, preLogin := LoginOutcome.noResponse,
    get1 := some
      { status := 200,
        body := Json.obj [("profile", Json.arr
          [Json.obj [("profileId", Json.str "12345")]])] },
    retryLogin := LoginOutcome.noResponse, get2 := none }

/-- Upload environment: existing file, 200 upload response whose body has the
single key `"UR54EQmIiGvBMt"`, profile fetch `profileEnv12345`, and a resume
update answering 200. -/
def uploadEnvKey : UploadEnv :=
  { fileExists := true,
    uploadResp := some
      { status := 200, body := Json.obj [("UR54EQmIiGvBMt", Json.obj [])] },
    profile := profileEnv12345,
    updateResp := some { status := 200, body := Json.null } }

/-- C7 witness: upload body `{"UR54EQmIiGvBMt": {...}}`, profile id `"12345"`,
update returning 200: `update_resume` is invoked with exactly that file key
and profile id, and the upload reports the update’s success. -/
theorem C7_upload_first_key_witness :
    (upload_resume uploadEnvKey { jar := [], file := CookieFile.entries [] }).events =
      [Event.uploadPost, Event.expiryCheck false, Event.profileGet,
        Event.updateResumePost "UR54EQmIiGvBMt" (Json.str "12345")] ∧
    (upload_resume uploadEnvKey { jar := [], file := CookieFile.entries [] }).result =
      Except.ok (some true) := by
  have H := C7_upload_first_key "UR54EQmIiGvBMt" (Json.obj []) [] profileEnv12345
    (some { status := 200, body := Json.null })
    { jar := [], file := CookieFile.entries [] } "12345" rfl (by decide)
  constructor
  · unfold uploadEnvKey
    rw [H.1]
    rfl
  · unfold uploadEnvKey
    exact H.2.1 true rfl

/-! ## C2 -/

/-- C2 counterexample: an authenticated call other than the profile fetch —
here `update_resume` — receiving HTTP 401 performs no login and no retry: it
catches the `HTTPError` and returns `False` after its single POST. -/
theorem C2_counterexample :
    (update_resume (some { status := 401, body := Json.null }) "filekey1" (Json.str "12345")
        { jar := [], file := CookieFile.absent }).result = Except.ok false ∧
    (update_resume (some { status := 401, body := Json.null }) "filekey1" (Json.str "12345")
        { jar := [], file := CookieFile.absent }).events =
      [Event.updateResumePost "filekey1" (Json.str "12345")] :=
  ⟨rfl, rfl⟩

/-- C2 (amended): only the profile fetch reacts to 401. With valid cookies, a
401 on its GET triggers exactly one forced login and — when that login
succeeds — exactly one retry; a 401 on the retry makes the call return no
result, with no further login or retry (one login POST and two GETs in the
whole trace). The other operations catch the 401 as an ordinary HTTP failure
with no login and no retry: `update_resume` returns `False` after its single
POST with zero logins; `upload_resume` returns `None` right after its single
upload POST; and a 401 on either headline submission ends
`refresh_resume_headline` with `False` immediately after that POST — no
login, no retry, no further submission. -/
theorem C2_profile_retries_once (env : ProfileEnv) (st : ClientState) (b1 b2 b3 : Json)
    (hexp : is_cookie_expired st.file env.now = false)
    (h1 : env.get1 = some { status := 401, body := b1 })
    (hlog : (login env.retryLogin env.now st).result = Except.ok ())
    (h2 : env.get2 = some { status := 401, body := b2 }) :
    (get_profile env st).result = Except.ok none ∧
    ((get_profile env st).events.filter Event.isLogin).length = 1 ∧
    ((get_profile env st).events.filter Event.isHttpSend).length = 2 ∧
    (∀ (k : String) (pid : Json) (st2 : ClientState),
      (update_resume (some { status := 401, body := b3 }) k pid st2).result =
          Except.ok false ∧
      ((update_resume (some { status := 401, body := b3 }) k pid st2).events.filter
          Event.isLogin).length = 0) ∧
    (∀ (b4 : Json) (penv2 : ProfileEnv) (uresp2 : Option HttpResp) (st3 : ClientState),
      upload_resume
          { fileExists := true, uploadResp := some { status := 401, body := b4 },
            profile := penv2, updateResp := uresp2 } st3 =
        { result := Except.ok none, state := st3, events := [Event.uploadPost] }) ∧
    (∀ (henv : HeadlineEnv) (st4 : ClientState) (pid2 : Json) (hl : String) (b5 : Json),
      (get_profile henv.profile st4).result = Except.ok (some (Json.obj
        [("profile", Json.arr [Json.obj
          [("profileId", pid2), ("resumeHeadline", Json.str hl)]])])) →
      pid2.truthy = true → hl ≠ "" →
      (henv.addResp = some { status := 401, body := b5 } →
        (refresh_resume_headline henv st4).result = Except.ok false ∧
        (refresh_resume_headline henv st4).events =
          (get_profile henv.profile st4).events ++
            [Event.headlinePost (rstripDot hl ++ ".") pid2]) ∧
      (∀ r1, henv.addResp = some r1 → r1.status = 200 →
        henv.revertResp = some { status := 401, body := b5 } →
        (refresh_resume_headline henv st4).result = Except.ok false ∧
        (refresh_resume_headline henv st4).events =
          (get_profile henv.profile st4).events ++
            [Event.headlinePost (rstripDot hl ++ ".") pid2,
             Event.headlinePost hl pid2])) := by
  have hcalc : get_profile env st =
      { result := Except.ok none,
        state := (login env.retryLogin env.now st).state,
        events := [Event.expiryCheck false, Event.profileGet, Event.loginCall,
          Event.profileGet] } := by
    simp only [get_profile, hexp, Bool.false_eq_true, if_false]
    simp only [get_profile_try, h1, h2, hlog, login_events]
    norm_num
  refine ⟨by rw [hcalc], by rw [hcalc]; rfl, by rw [hcalc]; rfl, ?_, ?_, ?_⟩
  · intro k pid st2
    constructor
    · simp [update_resume, raisesForStatus]
    · rw [update_resume_events]
      rfl
  · intro b4 penv2 uresp2 st3
    rfl
  · intro henv st4 pid2 hl b5 hres hpid hh
    constructor
    · intro ha
      unfold refresh_resume_headline
      dsimp only
      rw [hres, ha]
      simp [Json.lookup, Json.truthy_str, Json.truthy_arr, hpid, hh, raisesForStatus]
    · intro r1 ha h200 hr
      unfold refresh_resume_headline
      dsimp only
      rw [hres, ha, hr]
      simp [Json.lookup, Json.truthy_str, Json.truthy_arr, hpid, hh, h200,
        raisesForStatus]

/-- Headline environment whose opening profile fetch succeeds (headline
`"Engineer"`) and whose first update POST answers 401. -/
def headlineEnv401 : HeadlineEnv :=
  { profile := headlineProfileEnv "Engineer",
    addResp := some { status := 401, body := Json.null },
    revertResp := none }

/-- C2 witness: concrete double-401 run of the profile fetch with a login
that succeeds on an empty `cookies` array; a 401 `update_resume`; a 401
upload POST; and a 401 on the first headline submission, which ends the
refresh right after that POST with no login and no second submission. -/
theorem C2_profile_retries_once_witness :
    (get_profile
        { now := 0, preLogin := LoginOutcome.noResponse,
          get1 := some { status := 401, body := Json.null },
          retryLogin := LoginOutcome.response (Json.obj [("cookies", Json.arr [])]),
          get2 := some { status := 401, body := Json.null } }
        { jar := [], file := CookieFile.entries [] }).result = Except.ok none ∧
    ((get_profile
        { now := 0, preLogin := LoginOutcome.noResponse,
          get1 := some { status := 401, body := Json.null },
          retryLogin := LoginOutcome.response (Json.obj [("cookies", Json.arr [])]),
          get2 := some { status := 401, body := Json.null } }
        { jar := [], file := CookieFile.entries [] }).events.filter Event.isLogin).length = 1 ∧
    (update_resume (some { status := 401, body := Json.null }) "fk" (Json.str "p1")
        { jar := [], file := CookieFile.absent }).result = Except.ok false ∧
    (upload_resume
        { fileExists := true, uploadResp := some { status := 401, body := Json.null },
          profile := profileEnv12345, updateResp := none }
        { jar := [], file := CookieFile.absent }).result = Except.ok none ∧
    (refresh_resume_headline headlineEnv401
        { jar := [], file := CookieFile.entries [] }).result = Except.ok false ∧
    (refresh_resume_headline headlineEnv401
        { jar := [], file := CookieFile.entries [] }).events =
      [Event.expiryCheck false, Event.profileGet,
        Event.headlinePost "Engineer." (Json.str "12345")] := by
  have H := C2_profile_retries_once
    { now := 0, preLogin := LoginOutcome.noResponse,
      get1 := some { status := 401, body := Json.null },
      retryLogin := LoginOutcome.response (Json.obj [("cookies", Json.arr [])]),
      get2 := some { status := 401, body := Json.null } }
    { jar := [], file := CookieFile.entries [] }
    Json.null Json.null Json.null rfl rfl rfl rfl
  have Hup := H.2.2.2.2.1 Json.null profileEnv12345 none
    { jar := [], file := CookieFile.absent }
  have Hhl := (H.2.2.2.2.2 headlineEnv401
    { jar := [], file := CookieFile.entries [] }
    (Json.str "12345") "Engineer" Json.null rfl rfl (by decide)).1 rfl
  refine ⟨H.1, H.2.1,
    (H.2.2.2.1 "fk" (Json.str "p1") { jar := [], file := CookieFile.absent }).1,
    ?_, Hhl.1, ?_⟩
  · rw [Hup]
  · rw [Hhl.2]
    rfl

/-! ## C9 -/

/-- C9: at a concrete run where the profile GET returns 500 — so
`get_profile` returns no result — `refresh_resume_headline` does not produce
a success/failure verdict at all: the `AttributeError` raised by
`profile_data.get(...)` on `None` escapes the operation (the source has no
handler around that call), contradicting the claim that every operation
converts internal failures into a result. -/
theorem C9_refresh_headline_raises :
    (refresh_resume_headline
        { profile :=
            { now := 0, preLogin := LoginOutcome.noResponse,
              get1 := some { status := 500, body := Json.null },
              retryLogin := LoginOutcome.noResponse, get2 := none },
          addResp := none, revertResp := none }
        { jar := [], file := CookieFile.entries [] }).result =
      Except.error PyErr.attributeError := rfl

/-! ## C10 -/

/-- C10: with no explicit credentials and no environment values, client
construction fails with the missing-credentials `ValueError` and an empty
event trace — no HTTP request is issued; and per field, a nonempty explicit
argument always wins over the environment value. -/
theorem C10_missing_credentials_and_precedence (file : CookieFile) (s : String)
    (envVal : Option String) (hs : s ≠ "") :
    clientInit none none none none file = (Except.error PyErr.valueError, []) ∧
    resolveCred (some s) envVal = some s := by
  constructor
  · rfl
  · simp [resolveCred, truthyStr, hs]

/-- C10 witness: missing credentials on an absent cookie file, and the
explicit username `"user@mail"` overriding the environment value. -/
theorem C10_missing_credentials_and_precedence_witness :
    clientInit none none none none CookieFile.absent = (Except.error PyErr.valueError, []) ∧
    resolveCred (some "user@mail") (some "env@mail") = some "user@mail" :=
  C10_missing_credentials_and_precedence CookieFile.absent "user@mail" (some "env@mail")
    (by decide)

end Naukri
